import Mathlib

/-!
Shallow embedding of the Resource Access Layer of the Biological-Reasoning
repository (files `bio_reasoning/layers/resource_manager.py`,
`bio_reasoning/layers/layer_c.py`, `bio_reasoning/config/external_resources.py`),
together with theorems settling the frozen claims about it.

Modelling conventions:
* Python dicts are insertion-ordered association lists `List (String × α)`;
  assignment to an existing key replaces the value in place, a new key is
  appended at the end, exactly as CPython dicts behave.
* `datetime` values are rationals (seconds); `datetime.min` is the constant
  `datetimeMin`.  All calls to `datetime.now()` inside one `query_resource`
  call are modelled by a single `now` parameter (the `time.sleep(1)` on a
  rate-limit violation only delays, it has no other effect).
* JSON payloads returned by `response.json()` are abstracted as flat string
  dictionaries `Payload`; parameter values (strings and small ints in the
  source) are abstracted as strings.
* The network is an oracle `NetOracle` deciding, per request, whether the
  call returns HTTP 200 with a payload, a non-200 status, or raises a
  transport/parse exception (all of which `requests.get` / `.json()` can do).
* Python exceptions escaping a function are `Except.error (e : PyErr)`;
  `str(e)` is `errString e`.
-/

/-- Lookup in a Python dict (association list), `d[k]` as `Option`. -/
def dictGet {α : Type} : List (String × α) → String → Option α
  | [], _ => none
  | (k, v) :: t, key => if k = key then some v else dictGet t key

/-- Python dict assignment `d[k] = v`: replace in place if the key exists,
otherwise append at the end (CPython insertion-order semantics). -/
def dictSet {α : Type} : List (String × α) → String → α → List (String × α)
  | [], key, val => [(key, val)]
  | (k, v) :: t, key, val =>
      if k = key then (k, val) :: t else (k, v) :: dictSet t key val

/-- Python `del d[k]`: remove the (unique) binding of the key, if present. -/
def dictDel {α : Type} : List (String × α) → String → List (String × α)
  | [], _ => []
  | (k, v) :: t, key => if k = key then t else (k, v) :: dictDel t key

/-- The keys of a Python dict, in iteration (insertion) order. -/
def dictKeys {α : Type} (d : List (String × α)) : List String :=
  d.map Prod.fst

/-- ResourceType enum of `config/external_resources.py`. -/
inductive ResourceType
  | genomic | proteomic | literature | pathway | disease | drug
deriving DecidableEq

/-- ResourceConfig dataclass of `config/external_resources.py`.  The
`rate_limit` dict `\x7b"requests_per_minute": n\x7d` is the field
`requests_per_minute`; `reliability_score` (a float in the source) is a
rational. -/
structure ResourceConfig where
  name : String
  base_url : String
  api_key : String
  resource_type : ResourceType
  data_types : List String
  update_frequency : String
  reliability_score : ℚ
  requests_per_minute : ℚ
  priority : Int
deriving DecidableEq

/-- EXTERNAL_RESOURCES of `config/external_resources.py`, in source order. -/
def EXTERNAL_RESOURCES : List (String × ResourceConfig) :=
  [ ("opentargets",
      { name := "OpenTargets"
        base_url := "https://platform-api.opentargets.io/v3"
        api_key := ""
        resource_type := ResourceType.genomic
        data_types := ["target-disease", "target-drug", "evidence"]
        update_frequency := "weekly"
        reliability_score := 9/10
        requests_per_minute := 60
        priority := 1 }),
    ("uniprot",
      { name := "UniProt"
        base_url := "https://rest.uniprot.org"
        api_key := ""
        resource_type := ResourceType.proteomic
        data_types := ["protein", "sequence", "function"]
        update_frequency := "monthly"
        reliability_score := 95/100
        requests_per_minute := 30
        priority := 2 }),
    ("pubmed",
      { name := "PubMed"
        base_url := "https://eutils.ncbi.nlm.nih.gov/entrez/eutils"
        api_key := ""
        resource_type := ResourceType.literature
        data_types := ["publication", "abstract", "citation"]
        update_frequency := "daily"
        reliability_score := 85/100
        requests_per_minute := 10
        priority := 3 }),
    ("biorxiv",
      { name := "BioRxiv"
        base_url := "https://api.biorxiv.org/details/biorxiv"
        api_key := ""
        resource_type := ResourceType.literature
        data_types := ["preprint", "abstract", "citation"]
        update_frequency := "real-time"
        reliability_score := 8/10
        requests_per_minute := 20
        priority := 4 }),
    ("kegg",
      { name := "KEGG"
        base_url := "https://rest.kegg.jp"
        api_key := ""
        resource_type := ResourceType.pathway
        data_types := ["pathway", "compound", "reaction"]
        update_frequency := "monthly"
        reliability_score := 8/10
        requests_per_minute := 20
        priority := 5 }) ]

/-- RESOURCE_SELECTION_RULES of `config/external_resources.py`. -/
def RESOURCE_SELECTION_RULES : List (String × List String) :=
  [ ("target_disease", ["opentargets", "uniprot", "pubmed"]),
    ("protein_function", ["uniprot", "pubmed"]),
    ("pathway_analysis", ["kegg", "opentargets"]),
    ("literature_review", ["pubmed", "biorxiv"]),
    ("drug_target", ["opentargets", "uniprot"]) ]

/-- CACHE_CONFIG of `config/external_resources.py` (`ttl` in seconds). -/
structure CacheConfig where
  enabled : Bool
  ttl : ℚ
  max_size : Nat
deriving DecidableEq

/-- The concrete CACHE_CONFIG value of the source. -/
def CACHE_CONFIG : CacheConfig := { enabled := true, ttl := 3600, max_size := 1000 }

/-- The identifiers present in the resource catalog, in source order. -/
def catalogIds : List String := dictKeys EXTERNAL_RESOURCES

/-- The sort key `lambda x: EXTERNAL_RESOURCES[x].priority` of
`select_resources`.  The Python lookup raises KeyError off the catalog, but
the selector only ever sorts catalog identifiers, where the lookup is total;
the `getD 0` default is never exercised by `select_resources`. -/
def prio (rid : String) : Int :=
  ((dictGet EXTERNAL_RESOURCES rid).map ResourceConfig.priority).getD 0

/-- Descending-priority order used by `selected_resources.sort(key=...,
reverse=True)`; ties keep input order because the sort below is stable. -/
def prioGe (a b : String) : Prop := prio b ≤ prio a

instance : DecidableRel prioGe :=
  fun a b => inferInstanceAs (Decidable (prio b ≤ prio a))

instance : IsTotal String prioGe := ⟨fun a b => le_total (prio b) (prio a)⟩

instance : IsTrans String prioGe := ⟨fun _ _ _ h1 h2 => le_trans h2 h1⟩

/-- Loop body of ResourceManager.select_resources: skip "biorxiv", and
append a resource whose declared data types intersect the needed ones and
which is not already selected. -/
def selLoopStep (data_types_needed : List String) (acc : List String)
    (p : String × ResourceConfig) : List String :=
  if p.1 ≠ "biorxiv" ∧
      (data_types_needed.any fun dt => p.2.data_types.contains dt) ∧
      ¬ acc.contains p.1
  then acc ++ [p.1] else acc

/-- ResourceManager.select_resources of `layers/resource_manager.py`.
The `data_needs` dict is read only through `data_needs.get("data_types", [])`,
modelled by the `data_types_needed` list (a missing key is `[]`).
`List.insertionSort prioGe` models the stable `list.sort(key=priority,
reverse=True)`. -/
def select_resources (query_type : String) (data_types_needed : List String) :
    List String :=
  let base := (dictGet RESOURCE_SELECTION_RULES query_type).getD []
  let selected := EXTERNAL_RESOURCES.foldl (selLoopStep data_types_needed) base
  List.insertionSort prioGe selected

/-- A JSON payload as returned by `response.json()`, abstracted as a flat
string dictionary.  The empty payload `\x7b\x7d` is `[]`. -/
def Payload : Type := List (String × String)

instance : DecidableEq Payload := inferInstanceAs (DecidableEq (List (String × String)))

/-- Query parameters, a Python dict of parameter values abstracted as
strings (ints such as `size: 100` are rendered as decimal strings). -/
def Params : Type := List (String × String)

instance : DecidableEq Params := inferInstanceAs (DecidableEq (List (String × String)))

/-- Python `str()` of a parameter dict, e.g. `\x7b\x27term\x27: \x27tp53\x27\x7d`
(under the values-as-strings abstraction). -/
def strParams (params : Params) : String :=
  "\x7b" ++
    String.intercalate ", "
      (params.map fun p => "\x27" ++ p.1 ++ "\x27: \x27" ++ p.2 ++ "\x27") ++
  "\x7d"

/-- The cache key `f"\x7bresource_id\x7d:\x7bstr(query_params)\x7d"` used by
both `_check_cache` and `_update_cache`.  Note that the endpoint is NOT part
of the key in the source. -/
def cacheKey (resource_id : String) (query_params : Params) : String :=
  resource_id ++ ":" ++ strParams query_params

/-- One cache slot: `\x7b"data": ..., "timestamp": ...\x7d`. -/
structure CacheEntry where
  data : Payload
  timestamp : ℚ
deriving DecidableEq

/-- Python exceptions relevant to this layer.  `keyError k` is a
`KeyError(k)` from a dict subscript; `raised msg` stands for any other
exception whose `str()` is `msg`. -/
inductive PyErr
  | keyError (k : String)
  | raised (msg : String)
deriving DecidableEq

/-- Python `str(e)`; `str(KeyError(k))` is the repr of the key,
`\x27k\x27`. -/
def errString : PyErr → String
  | PyErr.keyError k => "\x27" ++ k ++ "\x27"
  | PyErr.raised msg => msg

/-- Outcome of one `requests.get` attempt: HTTP 200 with a parsed JSON
body, a non-200 status code, or a raised exception (connection error,
timeout, JSON parse failure, ...). -/
inductive ReqOutcome
  | ok (data : Payload)
  | httpError (code : Nat)
  | exn (msg : String)
deriving DecidableEq

/-- The network oracle: given the request URL, the query parameters, the
headers and the `verify` flag, decides the outcome of the attempt. -/
def NetOracle : Type :=
  String → Params → List (String × Option String) → Bool → ReqOutcome

/-- Mutable state of one `ResourceManager` instance.  `callLog` is ghost
instrumentation, recording each `query_resource` invocation as a
`(resource_id, endpoint)` pair; it affects nothing else. -/
structure RMState where
  cache : List (String × CacheEntry)
  last_request_time : List (String × ℚ)
  callLog : List (String × String)
deriving DecidableEq

/-- Python `datetime.min`, as seconds relative to the epoch. -/
def datetimeMin : ℚ := -62135596800

/-- ResourceManager._initialize_request_times: every catalog resource except
"biorxiv" starts with `last_request_time = datetime.min`. -/
def initRequestTimes : List (String × ℚ) :=
  EXTERNAL_RESOURCES.foldl
    (fun acc p => if p.1 ≠ "biorxiv" then dictSet acc p.1 datetimeMin else acc)
    []

/-- The state of a freshly constructed `ResourceManager()`. -/
def initState : RMState :=
  { cache := [], last_request_time := initRequestTimes, callLog := [] }

/-- ResourceManager._check_cache: returns the cached payload if the cache is
enabled, the key is present, and the entry is younger than the TTL.  Stale
entries are not evicted here. -/
def checkCache (cfg : CacheConfig) (cache : List (String × CacheEntry))
    (resource_id : String) (query_params : Params) (now : ℚ) : Option Payload :=
  if ¬ cfg.enabled then none
  else
    match dictGet cache (cacheKey resource_id query_params) with
    | some entry => if now - entry.timestamp < cfg.ttl then some entry.data else none
    | none => none

/-- Python `min(cache.items(), key=lambda x: x[1]["timestamp"])[0]`: the key
of the first entry (in dict iteration order) with the minimal timestamp.
Only called on a non-empty cache; the `[]` case is unreachable there. -/
def oldestKey (cache : List (String × CacheEntry)) : String :=
  match cache with
  | [] => ""
  | e :: rest =>
      (rest.foldl (fun best x => if x.2.timestamp < best.2.timestamp then x else best) e).1

/-- ResourceManager._update_cache: store the entry under the cache key
(timestamped `now`), then, if the cache exceeds `max_size`, delete the entry
with the globally oldest timestamp.  A no-op when the cache is disabled. -/
def updateCache (cfg : CacheConfig) (cache : List (String × CacheEntry))
    (resource_id : String) (query_params : Params) (data : Payload) (now : ℚ) :
    List (String × CacheEntry) :=
  if ¬ cfg.enabled then cache
  else
    let cache := dictSet cache (cacheKey resource_id query_params)
      { data := data, timestamp := now }
    if cache.length > cfg.max_size then dictDel cache (oldestKey cache) else cache

/-- ResourceManager._check_rate_limit: `EXTERNAL_RESOURCES[resource_id]` and
`self.last_request_time[resource_id]` are dict subscripts and raise KeyError
when the key is missing; otherwise the check is
`(now - last_request).total_seconds() >= 60 / requests_per_minute`. -/
def checkRateLimit (st : RMState) (resource_id : String) (now : ℚ) :
    Except PyErr Bool :=
  match dictGet EXTERNAL_RESOURCES resource_id with
  | none => Except.error (PyErr.keyError resource_id)
  | some config =>
      match dictGet st.last_request_time resource_id with
      | none => Except.error (PyErr.keyError resource_id)
      | some last_request =>
          Except.ok (decide (now - last_request ≥ 60 / config.requests_per_minute))

/-- The `requests.get` call issued by ResourceManager.query_resource: URL
`base_url/endpoint`, the query parameters, an Accept header, a Bearer
Authorization header only when a credential is configured (the source puts
`None` in the header dict otherwise), and TLS verification disabled exactly
for "opentargets". -/
def requestOutcome (net : NetOracle) (config : ResourceConfig)
    (resource_id : String) (endpoint : String) (query_params : Params) :
    ReqOutcome :=
  let verify_ssl := resource_id ≠ "opentargets"
  let headers : List (String × Option String) :=
    [ ("Accept", some "application/json"),
      ("Authorization",
        if config.api_key ≠ "" then some ("Bearer " ++ config.api_key) else none) ]
  net (config.base_url ++ "/" ++ endpoint) query_params headers verify_ssl

/-- ResourceManager.query_resource.  The early "biorxiv" return, the cache
lookup, the rate-limit check (whose KeyError for an unknown resource escapes:
it sits before the `try`), the catalog lookup, and the guarded request whose
failures all degrade to the empty payload.  On HTTP 200 the cache and the
rate-limiter timestamp are updated; on any failure neither is touched.
`time.sleep(1)` after a rate-limit violation only delays and is not
modelled; the ghost `callLog` records the invocation. -/
def queryResource (cfg : CacheConfig) (net : NetOracle) (now : ℚ) (st : RMState)
    (resource_id : String) (endpoint : String) (query_params : Params) :
    Except PyErr (Payload × RMState) :=
  let st := { st with callLog := st.callLog ++ [(resource_id, endpoint)] }
  if resource_id = "biorxiv" then Except.ok ([], st)
  else
    match checkCache cfg st.cache resource_id query_params now with
    | some cached_data => Except.ok (cached_data, st)
    | none =>
        match checkRateLimit st resource_id now with
        | Except.error e => Except.error e
        | Except.ok _allowed =>
            match dictGet EXTERNAL_RESOURCES resource_id with
            | none => Except.error (PyErr.keyError resource_id)
            | some config =>
                match requestOutcome net config resource_id endpoint query_params with
                | ReqOutcome.ok data =>
                    let st := { st with
                      cache := updateCache cfg st.cache resource_id query_params data now }
                    let st := { st with
                      last_request_time := dictSet st.last_request_time resource_id now }
                    Except.ok (data, st)
                | ReqOutcome.httpError _code => Except.ok ([], st)
                | ReqOutcome.exn _msg => Except.ok ([], st)

/-- Loop body of ResourceManager.query_multiple_resources: walk the
identifier list in order, and for each identifier present in the catalog
assign `results[resource_id] = query_resource(...)` into the accumulating
result dict; identifiers outside the catalog are skipped silently. -/
def queryMultipleAux (cfg : CacheConfig) (net : NetOracle) (now : ℚ)
    (endpoint : String) (query_params : Params) :
    RMState → List (String × Payload) → List String →
    Except PyErr (List (String × Payload) × RMState)
  | st, results, [] => Except.ok (results, st)
  | st, results, rid :: rest =>
      if (dictGet EXTERNAL_RESOURCES rid).isSome then
        match queryResource cfg net now st rid endpoint query_params with
        | Except.error e => Except.error e
        | Except.ok (payload, st') =>
            queryMultipleAux cfg net now endpoint query_params st'
              (dictSet results rid payload) rest
      else
        queryMultipleAux cfg net now endpoint query_params st results rest

/-- ResourceManager.query_multiple_resources: the loop above started from an
empty result dict. -/
def queryMultipleResources (cfg : CacheConfig) (net : NetOracle) (now : ℚ)
    (st : RMState) (resource_ids : List String) (endpoint : String)
    (query_params : Params) :
    Except PyErr (List (String × Payload) × RMState) :=
  queryMultipleAux cfg net now endpoint query_params st [] resource_ids

/-- Python `d.get(k, default)` for string values. -/
def pyGet (d : Params) (k : String) (default : String) : String :=
  (dictGet d k).getD default

/-- Python `d.get(k)` where a missing key yields `None`; under the
values-as-strings abstraction `None` is rendered as "None". -/
def pyGetOrNone (d : Params) (k : String) : String :=
  (dictGet d k).getD "None"

/-- Python truthiness of a dict: falsy iff empty. -/
def truthyPayload (p : Payload) : Bool :=
  match p with
  | [] => false
  | _ :: _ => true

/-- Python `"data" in results`. -/
def hasDataField (results : Payload) : Bool :=
  (dictGet results "data").isSome

/-- Python `len(results.get("data", []))` in the OpenTargets branches.
Since the `requests.get` call inside `_direct_api_request` is commented out
in the source, `results` is always the empty payload at the two uses of this
expression and its guard `results and "data" in results` is always false;
the flat-payload abstraction returns 0 for the unreachable evaluation. -/
def lenDataField (_results : Payload) : Int := 0

/-- The `results` slot of an adapter envelope: a raw payload dict, a list of
items, a mapping resource id to payload (from query_multiple_resources), or
Python `None`. -/
inductive ResultsV
  | rPayload (p : Payload)
  | rList (xs : List Payload)
  | rMap (m : List (String × Payload))
  | rNone
deriving DecidableEq

/-- Standard response envelope of ExternalRepository (layer_c.py): the dict
`\x7bquery, results, status, count\x7d` plus an `error` key added only when
the error argument is truthy. -/
structure Envelope where
  query : Params
  results : ResultsV
  status : String
  count : Int
  error : Option String
deriving DecidableEq

/-- ExternalRepository._create_standard_response of layer_c.py.  `results is
None` is replaced by `[]`; a missing count is `len(results)` for a list and
0 otherwise; the `error` key is added only when the error string is truthy
(non-None and non-empty). -/
def createStandardResponse (query_params : Params) (results : ResultsV)
    (status : String) (error : Option String) (count : Option Int) : Envelope :=
  let results := match results with
    | ResultsV.rNone => ResultsV.rList []
    | r => r
  let countVal : Int := match count with
    | some c => c
    | none => match results with
      | ResultsV.rList xs => (xs.length : Int)
      | _ => 0
  let errorField : Option String := match error with
    | none => none
    | some s => if s = "" then none else some s
  { query := query_params, results := results, status := status,
    count := countVal, error := errorField }

/-- OpenTargetsRepository._direct_api_request: the `requests.get` call is
commented out in the source; the method prints a fix-me message and returns
the empty payload (its except clause is unreachable). -/
def directApiRequest (_endpoint : String) (_params : Params) : Payload := []

/-- Try-block body of OpenTargetsRepository.query.  `inj` models an
exception raised at some point while building the query or parsing the
response (e.g. MemoryError, or an AttributeError from a malformed
query_params object); when present the body raises it.  Branches follow the
source: a bare search term uses `public/search`; a target or disease id uses
`public/association/filter` with None-valued params dropped; otherwise the
resource manager is consulted (its KeyError would surface here, inside the
adapter try). -/
def openTargetsBody (cfg : CacheConfig) (net : NetOracle) (now : ℚ)
    (query_params : Params) (inj : Option String) (st : RMState) :
    Except PyErr (Envelope × RMState) :=
  match inj with
  | some msg => Except.error (PyErr.raised msg)
  | none =>
    let query_term := pyGet query_params "query" ""
    let target_id := pyGet query_params "target" ""
    let disease_id := pyGet query_params "disease" ""
    if target_id = "" ∧ disease_id = "" ∧ query_term ≠ "" then
      let search_params : Params := [("q", query_term), ("size", "10")]
      let results := directApiRequest "public/search" search_params
      Except.ok
        (createStandardResponse query_params (ResultsV.rPayload results)
          (if truthyPayload results then "success" else "error")
          (if truthyPayload results then none else some "No results found")
          (some (if truthyPayload results ∧ hasDataField results
                 then lenDataField results else 0)),
         st)
    else if target_id ≠ "" ∨ disease_id ≠ "" then
      let assoc_params : Params :=
        (if target_id ≠ "" then [("target", target_id)] else []) ++
        (if disease_id ≠ "" then [("disease", disease_id)] else []) ++
        [("size", "100")]
      let results := directApiRequest "public/association/filter" assoc_params
      Except.ok
        (createStandardResponse query_params (ResultsV.rPayload results)
          (if truthyPayload results then "success" else "error")
          (if truthyPayload results then none else some "No results found")
          (some (if truthyPayload results ∧ hasDataField results
                 then lenDataField results else 0)),
         st)
    else
      let _selected := select_resources "opentargets" ["target", "disease", "evidence"]
      match queryResource cfg net now st "opentargets"
          "platform/public/association/filter" [("q", query_term), ("size", "100")] with
      | Except.error e => Except.error e
      | Except.ok (results, st') =>
          Except.ok
            (createStandardResponse query_params (ResultsV.rPayload results)
              "success" none none,
             st')

/-- OpenTargetsRepository.query: the try body above with its except clause,
which converts any exception into an error envelope with results `\x7b\x7d`
and count 0. -/
def openTargetsQuery (cfg : CacheConfig) (net : NetOracle) (now : ℚ)
    (query_params : Params) (inj : Option String) (st : RMState) :
    Envelope × RMState :=
  match openTargetsBody cfg net now query_params inj st with
  | Except.ok r => r
  | Except.error e =>
      (createStandardResponse query_params (ResultsV.rPayload []) "error"
        (some (errString e)) (some 0), st)

/-- Try-block body of TargetDiseaseRepository.query: select resources for
"target_disease", query them all through query_multiple_resources, and wrap
the result mapping in a success envelope. -/
def targetDiseaseBody (cfg : CacheConfig) (net : NetOracle) (now : ℚ)
    (query_params : Params) (inj : Option String) (st : RMState) :
    Except PyErr (Envelope × RMState) :=
  match inj with
  | some msg => Except.error (PyErr.raised msg)
  | none =>
    let resource_ids := select_resources "target_disease" ["target-disease", "evidence"]
    match queryMultipleResources cfg net now st resource_ids "evidence/filter"
        [("target", pyGetOrNone query_params "target"),
         ("disease", pyGetOrNone query_params "disease"),
         ("size", "100")] with
    | Except.error e => Except.error e
    | Except.ok (results, st') =>
        Except.ok
          (createStandardResponse query_params (ResultsV.rMap results)
            "success" none none,
           st')

/-- TargetDiseaseRepository.query: the try body above with its except
clause, which converts any exception into an error envelope with results
`\x7b\x7d` and count 0. -/
def targetDiseaseQuery (cfg : CacheConfig) (net : NetOracle) (now : ℚ)
    (query_params : Params) (inj : Option String) (st : RMState) :
    Envelope × RMState :=
  match targetDiseaseBody cfg net now query_params inj st with
  | Except.ok r => r
  | Except.error e =>
      (createStandardResponse query_params (ResultsV.rPayload []) "error"
        (some (errString e)) (some 0), st)

/-- Well-formedness of a manager state: every catalog resource other than
"biorxiv" has a tracked last-request time (established by the constructor
and preserved by every operation). -/
def wfState (st : RMState) : Bool :=
  catalogIds.all fun rid =>
    (rid == "biorxiv") || (dictGet st.last_request_time rid).isSome

deriving instance DecidableEq for Except

/-- A network oracle whose every request succeeds with the given payload. -/
def netConst (data : Payload) : NetOracle :=
  fun _url _params _headers _verify => ReqOutcome.ok data

/-- A network oracle whose every request returns the given non-200 status. -/
def netHttpFail (code : Nat) : NetOracle :=
  fun _url _params _headers _verify => ReqOutcome.httpError code

/-- A network oracle whose every request raises a transport exception. -/
def netExn (msg : String) : NetOracle :=
  fun _url _params _headers _verify => ReqOutcome.exn msg

/-- Truth of `Except.ok`: the call returned a value instead of raising. -/
def exceptIsOk {ε α : Type} : Except ε α → Bool
  | Except.ok _ => true
  | Except.error _ => false

/-! Helper lemmas about the dict model. -/

theorem dictGet_mem {α : Type} {d : List (String × α)} {k : String} {v : α}
    (h : dictGet d k = some v) : (k, v) ∈ d := by
  induction d with
  | nil => simp [dictGet] at h
  | cons p t ih =>
      obtain ⟨k', v'⟩ := p
      by_cases hk : k' = k
      · subst hk
        simp [dictGet] at h
        simp [h]
      · simp [dictGet, hk] at h
        exact List.mem_cons_of_mem _ (ih h)

theorem dictGet_isSome_iff {α : Type} (d : List (String × α)) (k : String) :
    (dictGet d k).isSome = true ↔ k ∈ dictKeys d := by
  induction d with
  | nil => simp [dictGet, dictKeys]
  | cons p t ih =>
      obtain ⟨k', v'⟩ := p
      by_cases hk : k' = k
      · subst hk
        simp [dictGet, dictKeys]
      · simp [dictGet, dictKeys, hk, ih]
        intro h
        exact absurd h.symm hk

theorem dictGet_dictSet_self {α : Type} (d : List (String × α)) (k : String) (v : α) :
    dictGet (dictSet d k v) k = some v := by
  induction d with
  | nil => simp [dictGet, dictSet]
  | cons p t ih =>
      obtain ⟨k', v'⟩ := p
      by_cases hk : k' = k
      · subst hk
        simp [dictGet, dictSet]
      · simp [dictGet, dictSet, hk, ih]

theorem dictGet_dictSet_ne {α : Type} (d : List (String × α)) (k k' : String) (v : α)
    (h : k' ≠ k) : dictGet (dictSet d k v) k' = dictGet d k' := by
  have hkk : ¬ (k = k') := fun hh => h hh.symm
  induction d with
  | nil => simp [dictGet, dictSet, hkk]
  | cons p t ih =>
      obtain ⟨k0, v0⟩ := p
      by_cases hk : k0 = k
      · subst hk
        simp [dictGet, dictSet, hkk]
      · simp only [dictSet, if_neg hk, dictGet]
        by_cases hk' : k0 = k'
        · simp [hk']
        · simp [hk', ih]

theorem dictKeys_dictSet {α : Type} (d : List (String × α)) (k : String) (v : α) :
    dictKeys (dictSet d k v) =
      if k ∈ dictKeys d then dictKeys d else dictKeys d ++ [k] := by
  induction d with
  | nil => simp [dictKeys, dictSet]
  | cons p t ih =>
      obtain ⟨k', v'⟩ := p
      by_cases hk : k' = k
      · subst hk
        simp [dictKeys, dictSet]
      · have hk2 : ¬ (k = k') := fun hh => hk hh.symm
        simp only [dictKeys] at ih ⊢
        simp only [dictSet, if_neg hk, List.map_cons, ih]
        by_cases hm : k ∈ List.map Prod.fst t
        · simp [hm, hk2]
        · simp [hm, hk2]

/-! Helper lemmas about the selector. -/

theorem selLoopStep_nodup (dts : List String) (acc : List String)
    (p : String × ResourceConfig) (h : acc.Nodup) : (selLoopStep dts acc p).Nodup := by
  unfold selLoopStep
  split
  · next hc =>
      have hnm : p.1 ∉ acc := by
        intro hm
        exact hc.2.2 (List.elem_eq_true_of_mem hm)
      simp [List.nodup_append, h, hnm]
  · exact h

theorem selFold_nodup (dts : List String) (l : List (String × ResourceConfig))
    (acc : List String) (h : acc.Nodup) :
    (l.foldl (selLoopStep dts) acc).Nodup := by
  induction l generalizing acc with
  | nil => exact h
  | cons p t ih => exact ih _ (selLoopStep_nodup dts acc p h)

theorem selLoopStep_biorxiv (dts : List String) (acc : List String)
    (p : String × ResourceConfig) :
    ("biorxiv" ∈ selLoopStep dts acc p ↔ "biorxiv" ∈ acc) := by
  unfold selLoopStep
  split
  · next hc =>
      simp only [List.mem_append, List.mem_singleton]
      constructor
      · rintro (hm | he)
        · exact hm
        · exact absurd he.symm hc.1
      · exact fun hm => Or.inl hm
  · exact Iff.rfl

theorem selFold_biorxiv (dts : List String) (l : List (String × ResourceConfig))
    (acc : List String) :
    ("biorxiv" ∈ l.foldl (selLoopStep dts) acc ↔ "biorxiv" ∈ acc) := by
  induction l generalizing acc with
  | nil => exact Iff.rfl
  | cons p t ih => exact (ih _).trans (selLoopStep_biorxiv dts acc p)

theorem baseRulesNodup (query_type : String) :
    ((dictGet RESOURCE_SELECTION_RULES query_type).getD []).Nodup := by
  match h : dictGet RESOURCE_SELECTION_RULES query_type with
  | none => simp
  | some l =>
      have hm : (query_type, l) ∈ RESOURCE_SELECTION_RULES := dictGet_mem h
      simp only [RESOURCE_SELECTION_RULES, List.mem_cons, List.mem_singleton,
        Prod.mk.injEq, List.not_mem_nil, or_false] at hm
      rcases hm with ⟨_, rfl⟩ | ⟨_, rfl⟩ | ⟨_, rfl⟩ | ⟨_, rfl⟩ | ⟨_, rfl⟩ <;> decide

/-- Claim C9: for every query type and data needs, select_resources returns
a duplicate-free list sorted by configured priority in descending order (a
resource matched both by the static rules and by the data-type scan appears
once; the catalog's priorities are pairwise distinct, so the tie clause is
vacuous). -/
theorem c9_selector_nodup_sorted_desc (query_type : String)
    (data_types_needed : List String) :
    (select_resources query_type data_types_needed).Nodup ∧
    List.Pairwise (fun a b => prio a ≥ prio b)
      (select_resources query_type data_types_needed) := by
  constructor
  · unfold select_resources
    exact ((List.perm_insertionSort prioGe _).nodup_iff).mpr
      (selFold_nodup _ _ _ (baseRulesNodup _))
  · exact List.sorted_insertionSort prioGe _

/-- Counterexample to claim C6: the static rule list for "literature_review"
contains the exempt resource "biorxiv", and select_resources returns it. -/
theorem c6_counterexample_biorxiv_selected :
    "biorxiv" ∈ select_resources "literature_review" [] ∧
    select_resources "literature_review" [] = ["biorxiv", "pubmed"] := by decide

/-- Claim C6 as amended: the data-type scan of select_resources never adds
the exempt resource "biorxiv"; it appears in the output exactly when the
static selection rule list for the query type already contains it (as
"literature_review" does). -/
theorem c6_biorxiv_only_from_static_rules (query_type : String)
    (data_types_needed : List String) :
    ("biorxiv" ∈ select_resources query_type data_types_needed ↔
      "biorxiv" ∈ (dictGet RESOURCE_SELECTION_RULES query_type).getD []) := by
  unfold select_resources
  exact (List.mem_insertionSort prioGe).trans (selFold_biorxiv _ _ _)

/-- Counterexample to claim C7: a resource with no tracked last-request
state is not treated as allowed — the check raises KeyError.  "biorxiv" is
in the catalog but (being delegated) gets no entry at construction time, and
`_check_rate_limit` crashes on `self.last_request_time["biorxiv"]`. -/
theorem c7_counterexample_untracked_raises :
    checkRateLimit initState "biorxiv" 0 = Except.error (PyErr.keyError "biorxiv") ∧
    checkRateLimit initState "biorxiv" 0 ≠ Except.ok true := by decide

/-- Claim C7 as amended: for a resource with a catalog entry and a tracked
last-request time, the rate check returns exactly
`(now - last) >= 60 / requests_per_minute`; for a resource missing from the
catalog, or present but untracked, it raises KeyError instead of treating
the request as allowed. -/
theorem c7_rate_limit_formula (st : RMState) (resource_id : String) (now : ℚ)
    (config : ResourceConfig) (last : ℚ) :
    (dictGet EXTERNAL_RESOURCES resource_id = some config →
      dictGet st.last_request_time resource_id = some last →
      checkRateLimit st resource_id now =
        Except.ok (decide (now - last ≥ 60 / config.requests_per_minute))) ∧
    (dictGet EXTERNAL_RESOURCES resource_id = none →
      checkRateLimit st resource_id now =
        Except.error (PyErr.keyError resource_id)) ∧
    (dictGet EXTERNAL_RESOURCES resource_id = some config →
      dictGet st.last_request_time resource_id = none →
      checkRateLimit st resource_id now =
        Except.error (PyErr.keyError resource_id)) := by
  refine ⟨fun h1 h2 => ?_, fun h1 => ?_, fun h1 h2 => ?_⟩
  · simp [checkRateLimit, h1, h2]
  · simp [checkRateLimit, h1]
  · simp [checkRateLimit, h1, h2]

/-- Witness for c7_rate_limit_formula: the fresh manager state tracks
"pubmed" at datetime.min, and a request at time 0 is allowed (the elapsed
interval exceeds 6 seconds), via the formula conjunct; "nosuch" raises. -/
theorem c7_rate_limit_formula_witness :
    checkRateLimit initState "pubmed" 0 = Except.ok true ∧
    checkRateLimit initState "nosuch" 0 = Except.error (PyErr.keyError "nosuch") := by
  constructor
  · have h := (c7_rate_limit_formula initState "pubmed" 0
      { name := "PubMed"
        base_url := "https://eutils.ncbi.nlm.nih.gov/entrez/eutils"
        api_key := ""
        resource_type := ResourceType.literature
        data_types := ["publication", "abstract", "citation"]
        update_frequency := "daily"
        reliability_score := 85/100
        requests_per_minute := 10
        priority := 3 } datetimeMin).1 (by with_unfolding_all decide)
      (by decide)
    rw [h]
    with_unfolding_all decide
  · exact (c7_rate_limit_formula initState "nosuch" 0
      { name := "", base_url := "", api_key := "",
        resource_type := ResourceType.literature, data_types := [],
        update_frequency := "", reliability_score := 0,
        requests_per_minute := 1, priority := 0 } 0).2.1
      (by with_unfolding_all decide)

/-- Claim C8: with max_size = 2, inserting three entries with distinct cache
keys and increasing timestamps leaves exactly the two most recently inserted
entries; the put that exceeds the maximum evicts exactly the entry with the
globally oldest insertion timestamp, irrespective of which resources the
keys belong to. -/
theorem c8_eviction_globally_oldest (ttl : ℚ) (r1 r2 r3 : String)
    (p1 p2 p3 : Params) (d1 d2 d3 : Payload) (t1 t2 t3 : ℚ)
    (h12 : cacheKey r1 p1 ≠ cacheKey r2 p2)
    (h13 : cacheKey r1 p1 ≠ cacheKey r3 p3)
    (h23 : cacheKey r2 p2 ≠ cacheKey r3 p3)
    (ht12 : t1 < t2) (ht23 : t2 < t3) :
    updateCache { enabled := true, ttl := ttl, max_size := 2 }
      (updateCache { enabled := true, ttl := ttl, max_size := 2 }
        (updateCache { enabled := true, ttl := ttl, max_size := 2 } [] r1 p1 d1 t1)
        r2 p2 d2 t2)
      r3 p3 d3 t3 =
    [(cacheKey r2 p2, { data := d2, timestamp := t2 }),
     (cacheKey r3 p3, { data := d3, timestamp := t3 })] := by
  have hn21 : ¬ (t2 < t1) := not_lt.mpr (le_of_lt ht12)
  have hn31 : ¬ (t3 < t1) := not_lt.mpr (le_of_lt (lt_trans ht12 ht23))
  have e1 : updateCache { enabled := true, ttl := ttl, max_size := 2 } [] r1 p1 d1 t1 =
      [(cacheKey r1 p1, { data := d1, timestamp := t1 })] := by
    simp [updateCache, dictSet]
  have e2 : updateCache { enabled := true, ttl := ttl, max_size := 2 }
      [(cacheKey r1 p1, { data := d1, timestamp := t1 })] r2 p2 d2 t2 =
      [(cacheKey r1 p1, { data := d1, timestamp := t1 }),
       (cacheKey r2 p2, { data := d2, timestamp := t2 })] := by
    simp [updateCache, dictSet, h12]
  have e3 : updateCache { enabled := true, ttl := ttl, max_size := 2 }
      [(cacheKey r1 p1, { data := d1, timestamp := t1 }),
       (cacheKey r2 p2, { data := d2, timestamp := t2 })] r3 p3 d3 t3 =
      [(cacheKey r2 p2, { data := d2, timestamp := t2 }),
       (cacheKey r3 p3, { data := d3, timestamp := t3 })] := by
    simp [updateCache, dictSet, dictDel, oldestKey, h13, h23, hn21, hn31]
  rw [e1, e2, e3]

/-- Witness for c8_eviction_globally_oldest at concrete resources "a", "b",
"c" with empty parameter dicts and timestamps 0, 1, 2. -/
theorem c8_eviction_globally_oldest_witness :
    updateCache { enabled := true, ttl := 10, max_size := 2 }
      (updateCache { enabled := true, ttl := 10, max_size := 2 }
        (updateCache { enabled := true, ttl := 10, max_size := 2 } [] "a" [] [] 0)
        "b" [] [] 1)
      "c" [] [] 2 =
    [(cacheKey "b" [], { data := [], timestamp := 1 }),
     (cacheKey "c" [], { data := [], timestamp := 2 })] :=
  c8_eviction_globally_oldest 10 "a" "b" "c" [] [] [] [] [] [] 0 1 2
    (by decide) (by decide) (by decide) (by decide) (by decide)

/-! Helper lemmas about query_resource. -/

theorem wfState_callLog (st : RMState) (l : List (String × String)) :
    wfState { st with callLog := l } = wfState st := rfl

theorem wfState_cache (st : RMState) (c : List (String × CacheEntry)) :
    wfState { st with cache := c } = wfState st := rfl

theorem wfState_spec {st : RMState} (hwf : wfState st = true) {rid : String}
    (hmem : rid ∈ catalogIds) (hb : rid ≠ "biorxiv") :
    (dictGet st.last_request_time rid).isSome = true := by
  have h := (List.all_eq_true.mp hwf) rid hmem
  rcases Bool.or_eq_true_iff.mp h with h1 | h2
  · exact absurd (beq_iff_eq.mp h1) hb
  · exact h2

theorem dictGet_dictSet_isSome_of {α : Type} {d : List (String × α)} {r : String}
    (k : String) (v : α) (h : (dictGet d r).isSome = true) :
    (dictGet (dictSet d k v) r).isSome = true := by
  by_cases hr : r = k
  · subst hr
    simp [dictGet_dictSet_self]
  · rw [dictGet_dictSet_ne d k r v hr]
    exact h

theorem wfState_set_last (st : RMState) (k : String) (v : ℚ)
    (hwf : wfState st = true) :
    wfState { st with last_request_time := dictSet st.last_request_time k v } = true := by
  refine List.all_eq_true.mpr fun rid hmem => ?_
  have h := (List.all_eq_true.mp hwf) rid hmem
  rcases Bool.or_eq_true_iff.mp h with h1 | h2
  · exact Bool.or_eq_true_iff.mpr (Or.inl h1)
  · exact Bool.or_eq_true_iff.mpr (Or.inr (dictGet_dictSet_isSome_of k v h2))

theorem queryResource_biorxiv (cfg : CacheConfig) (net : NetOracle) (now : ℚ)
    (st : RMState) (endpoint : String) (query_params : Params) :
    queryResource cfg net now st "biorxiv" endpoint query_params =
      Except.ok ([], { st with callLog := st.callLog ++ [("biorxiv", endpoint)] }) := by
  simp [queryResource]

theorem queryResource_cacheHit (cfg : CacheConfig) (net : NetOracle) (now : ℚ)
    (st : RMState) (rid ep : String) (params : Params) (data : Payload)
    (hb : rid ≠ "biorxiv")
    (hhit : checkCache cfg st.cache rid params now = some data) :
    queryResource cfg net now st rid ep params =
      Except.ok (data, { st with callLog := st.callLog ++ [(rid, ep)] }) := by
  simp [queryResource, hb, hhit]

theorem queryResource_eq (cfg : CacheConfig) (net : NetOracle) (now : ℚ)
    (st : RMState) (rid ep : String) (params : Params) (config : ResourceConfig)
    (hb : rid ≠ "biorxiv")
    (hmiss : checkCache cfg st.cache rid params now = none)
    (hcat : dictGet EXTERNAL_RESOURCES rid = some config)
    (htrack : (dictGet st.last_request_time rid).isSome = true) :
    queryResource cfg net now st rid ep params =
      match requestOutcome net config rid ep params with
      | ReqOutcome.ok data =>
          Except.ok (data,
            { cache := updateCache cfg st.cache rid params data now,
              last_request_time := dictSet st.last_request_time rid now,
              callLog := st.callLog ++ [(rid, ep)] })
      | ReqOutcome.httpError _ =>
          Except.ok ([], { st with callLog := st.callLog ++ [(rid, ep)] })
      | ReqOutcome.exn _ =>
          Except.ok ([], { st with callLog := st.callLog ++ [(rid, ep)] }) := by
  obtain ⟨last, hlast⟩ := Option.isSome_iff_exists.mp htrack
  simp only [queryResource, if_neg hb, hmiss, checkRateLimit, hcat, hlast]


/-- Counterexample to claim C1: for a resource id absent from the catalog,
query_resource does not return a value — the KeyError from
`EXTERNAL_RESOURCES[resource_id]` inside `_check_rate_limit` is raised
before the try block and propagates to the caller. -/
theorem c1_counterexample_unknown_id_raises :
    queryResource CACHE_CONFIG (netConst [("a", "1")]) 0 initState "nosuch" "e" [] =
      Except.error (PyErr.keyError "nosuch") := by decide

/-- Claim C1 as amended: for every resource id present in the catalog and a
well-formed manager state, query_resource returns a value — any transport or
HTTP failure of the attempted request degrades to the empty payload - but an
unknown resource identifier raises KeyError out of query_resource itself; it
is query_multiple_resources that shields callers by skipping unknown ids. -/
theorem c1_known_resource_never_raises (cfg : CacheConfig) (net : NetOracle)
    (now : ℚ) (st : RMState) (rid ep : String) (params : Params)
    (hmem : rid ∈ catalogIds) (hwf : wfState st = true) :
    exceptIsOk (queryResource cfg net now st rid ep params) = true ∧
    (∀ config, rid ≠ "biorxiv" →
      checkCache cfg st.cache rid params now = none →
      dictGet EXTERNAL_RESOURCES rid = some config →
      (∀ code, requestOutcome net config rid ep params = ReqOutcome.httpError code →
        ∃ st', queryResource cfg net now st rid ep params = Except.ok ([], st')) ∧
      (∀ msg, requestOutcome net config rid ep params = ReqOutcome.exn msg →
        ∃ st', queryResource cfg net now st rid ep params = Except.ok ([], st'))) := by
  have htrackOf : rid ≠ "biorxiv" → (dictGet st.last_request_time rid).isSome = true :=
    fun hb => wfState_spec hwf hmem hb
  constructor
  · by_cases hb : rid = "biorxiv"
    · subst hb
      rw [queryResource_biorxiv]
      rfl
    · match hcc : checkCache cfg st.cache rid params now with
      | some data =>
          rw [queryResource_cacheHit cfg net now st rid ep params data hb hcc]
          rfl
      | none =>
          obtain ⟨config, hcat⟩ := Option.isSome_iff_exists.mp
            ((dictGet_isSome_iff EXTERNAL_RESOURCES rid).mpr hmem)
          rw [queryResource_eq cfg net now st rid ep params config hb hcc hcat
            (htrackOf hb)]
          cases requestOutcome net config rid ep params <;> rfl
  · intro config hb hmiss hcat
    rw [queryResource_eq cfg net now st rid ep params config hb hmiss hcat
      (htrackOf hb)]
    constructor
    · intro code h
      rw [h]
      exact ⟨_, rfl⟩
    · intro msg h
      rw [h]
      exact ⟨_, rfl⟩

/-- Witness for c1_known_resource_never_raises: a fresh manager queried for
"pubmed" over a network that always answers 500 returns a value, namely the
empty payload. -/
theorem c1_known_resource_never_raises_witness :
    exceptIsOk (queryResource CACHE_CONFIG (netHttpFail 500) 0 initState "pubmed"
      "esearch.fcgi" [("term", "tp53")]) = true ∧
    (queryResource CACHE_CONFIG (netHttpFail 500) 0 initState "pubmed"
      "esearch.fcgi" [("term", "tp53")]).toOption.map Prod.fst = some [] := by
  have h := c1_known_resource_never_raises CACHE_CONFIG (netHttpFail 500) 0 initState
    "pubmed" "esearch.fcgi" [("term", "tp53")] (by decide) (by decide)
  refine ⟨h.1, ?_⟩
  obtain ⟨st', hst⟩ := (h.2
    { name := "PubMed"
      base_url := "https://eutils.ncbi.nlm.nih.gov/entrez/eutils"
      api_key := ""
      resource_type := ResourceType.literature
      data_types := ["publication", "abstract", "citation"]
      update_frequency := "daily"
      reliability_score := 85/100
      requests_per_minute := 10
      priority := 3 }
    (by decide) (by decide) (by with_unfolding_all decide)).1 500 rfl
  rw [hst]
  rfl

/-- Counterexample to claim C3: a failed (non-200) request attempt does not
update the rate-limiter timestamp — after a 500 answer at time 7, "pubmed"
still carries datetime.min, so the failed attempt does not count against the
rate budget. -/
theorem c3_counterexample_failure_not_recorded :
    ((queryResource CACHE_CONFIG (netHttpFail 500) 7 initState "pubmed"
        "esearch.fcgi" [("term", "tp53")]).toOption.map fun r =>
          dictGet r.2.last_request_time "pubmed") = some (some datetimeMin) ∧
    datetimeMin ≠ (7 : ℚ) := by
  constructor
  · decide
  · with_unfolding_all decide

/-- Claim C3 as amended: query_resource records the rate-limiter timestamp
only after a successful (HTTP 200) attempt; a failed attempt (non-200 status
or exception) leaves both last_request_time and the cache unchanged. -/
theorem c3_timestamp_only_on_success (cfg : CacheConfig) (net : NetOracle)
    (now : ℚ) (st : RMState) (rid ep : String) (params : Params)
    (config : ResourceConfig)
    (hb : rid ≠ "biorxiv")
    (hmiss : checkCache cfg st.cache rid params now = none)
    (hcat : dictGet EXTERNAL_RESOURCES rid = some config)
    (htrack : (dictGet st.last_request_time rid).isSome = true) :
    (∀ data, requestOutcome net config rid ep params = ReqOutcome.ok data →
      ∃ st', queryResource cfg net now st rid ep params = Except.ok (data, st') ∧
        dictGet st'.last_request_time rid = some now) ∧
    (∀ code, requestOutcome net config rid ep params = ReqOutcome.httpError code →
      ∃ st', queryResource cfg net now st rid ep params = Except.ok ([], st') ∧
        st'.last_request_time = st.last_request_time ∧ st'.cache = st.cache) ∧
    (∀ msg, requestOutcome net config rid ep params = ReqOutcome.exn msg →
      ∃ st', queryResource cfg net now st rid ep params = Except.ok ([], st') ∧
        st'.last_request_time = st.last_request_time ∧ st'.cache = st.cache) := by
  rw [queryResource_eq cfg net now st rid ep params config hb hmiss hcat htrack]
  refine ⟨fun data h => ?_, fun code h => ?_, fun msg h => ?_⟩ <;> rw [h]
  · exact ⟨_, rfl, dictGet_dictSet_self _ _ _⟩
  · exact ⟨_, rfl, rfl, rfl⟩
  · exact ⟨_, rfl, rfl, rfl⟩

/-- Witness for c3_timestamp_only_on_success: a successful fetch for
"pubmed" at time 7 records last_request_time 7. -/
theorem c3_timestamp_only_on_success_witness :
    ∃ st', queryResource CACHE_CONFIG (netConst [("a", "1")]) 7 initState "pubmed"
        "esearch.fcgi" [("term", "tp53")] = Except.ok ([("a", "1")], st') ∧
      dictGet st'.last_request_time "pubmed" = some 7 :=
  (c3_timestamp_only_on_success CACHE_CONFIG (netConst [("a", "1")]) 7 initState
    "pubmed" "esearch.fcgi" [("term", "tp53")]
    { name := "PubMed"
      base_url := "https://eutils.ncbi.nlm.nih.gov/entrez/eutils"
      api_key := ""
      resource_type := ResourceType.literature
      data_types := ["publication", "abstract", "citation"]
      update_frequency := "daily"
      reliability_score := 85/100
      requests_per_minute := 10
      priority := 3 }
    (by decide) (by decide) (by with_unfolding_all decide) (by decide)).1
    [("a", "1")] rfl

/-- Claim C4, demonstrated at the failing input: the cache key omits the
endpoint, so a second fetch for the same resource and parameters but a
different endpoint is answered from the first fetch's cache entry — the
network (which would have returned a different payload) is never consulted.
The first call caches `esearch.fcgi` data under the key
"pubmed:\x7b\x27term\x27: \x27tp53\x27\x7d"; the second call, for
`efetch.fcgi`, computes the same key and returns the cached payload. -/
theorem c4_cache_hit_ignores_endpoint :
    ((queryResource CACHE_CONFIG (netConst [("hit", "1")]) 0 initState "pubmed"
        "esearch.fcgi" [("term", "tp53")]).toOption.bind fun r1 =>
      (queryResource CACHE_CONFIG (netConst [("other", "2")]) 0 r1.2 "pubmed"
        "efetch.fcgi" [("term", "tp53")]).toOption.map Prod.fst) =
      some [("hit", "1")] ∧
    ([("hit", "1")] : Payload) ≠ [("other", "2")] := by
  constructor
  · with_unfolding_all decide
  · decide

theorem wfState_only_last (st st' : RMState)
    (h : st.last_request_time = st'.last_request_time) : wfState st = wfState st' := by
  simp [wfState, h]

theorem mem_dictKeys_dictSet {α : Type} (d : List (String × α)) (k r : String) (v : α) :
    (r ∈ dictKeys (dictSet d k v) ↔ r ∈ dictKeys d ∨ r = k) := by
  rw [dictKeys_dictSet]
  by_cases hm : k ∈ dictKeys d
  · rw [if_pos hm]
    constructor
    · exact fun h => Or.inl h
    · rintro (h | rfl)
      · exact h
      · exact hm
  · rw [if_neg hm]
    simp

theorem queryResource_ok (cfg : CacheConfig) (net : NetOracle) (now : ℚ)
    (st : RMState) (rid ep : String) (params : Params)
    (hmem : rid ∈ catalogIds) (hwf : wfState st = true) :
    ∃ payload st', queryResource cfg net now st rid ep params = Except.ok (payload, st') ∧
      wfState st' = true ∧ st'.callLog = st.callLog ++ [(rid, ep)] := by
  by_cases hb : rid = "biorxiv"
  · subst hb
    exact ⟨[], _, queryResource_biorxiv cfg net now st ep params, hwf, rfl⟩
  · match hcc : checkCache cfg st.cache rid params now with
    | some data =>
        exact ⟨data, _, queryResource_cacheHit cfg net now st rid ep params data hb hcc,
          hwf, rfl⟩
    | none =>
        obtain ⟨config, hcat⟩ := Option.isSome_iff_exists.mp
          ((dictGet_isSome_iff EXTERNAL_RESOURCES rid).mpr hmem)
        rw [queryResource_eq cfg net now st rid ep params config hb hcc hcat
          (wfState_spec hwf hmem hb)]
        match requestOutcome net config rid ep params with
        | ReqOutcome.ok data =>
            refine ⟨data, _, rfl, ?_, rfl⟩
            rw [wfState_only_last
              ⟨updateCache cfg st.cache rid params data now,
                dictSet st.last_request_time rid now,
                st.callLog ++ [(rid, ep)]⟩
              { st with last_request_time := dictSet st.last_request_time rid now } rfl]
            exact wfState_set_last st rid now hwf
        | ReqOutcome.httpError code => exact ⟨[], _, rfl, hwf, rfl⟩
        | ReqOutcome.exn msg => exact ⟨[], _, rfl, hwf, rfl⟩

theorem queryMultipleAux_spec (cfg : CacheConfig) (net : NetOracle) (now : ℚ)
    (ep : String) (params : Params) :
    ∀ (ids : List String) (st : RMState) (acc : List (String × Payload)),
    wfState st = true →
    ∃ m st', queryMultipleAux cfg net now ep params st acc ids = Except.ok (m, st') ∧
      wfState st' = true ∧
      (∀ r, r ∈ dictKeys m ↔ r ∈ dictKeys acc ∨ (r ∈ ids ∧ r ∈ catalogIds)) ∧
      st'.callLog = st.callLog ++
        (ids.filter fun r => (dictGet EXTERNAL_RESOURCES r).isSome).map (fun r => (r, ep)) := by
  intro ids
  induction ids with
  | nil =>
      intro st acc hwf
      exact ⟨acc, st, rfl, hwf, fun r => by simp, by simp⟩
  | cons rid rest ih =>
      intro st acc hwf
      by_cases hs : (dictGet EXTERNAL_RESOURCES rid).isSome = true
      · have hmem : rid ∈ catalogIds := (dictGet_isSome_iff EXTERNAL_RESOURCES rid).mp hs
        obtain ⟨payload, st1, hq, hwf1, hlog1⟩ :=
          queryResource_ok cfg net now st rid ep params hmem hwf
        obtain ⟨m, st', hrec, hwf', hkeys, hlog⟩ := ih st1 (dictSet acc rid payload) hwf1
        refine ⟨m, st', ?_, hwf', ?_, ?_⟩
        · simp only [queryMultipleAux, if_pos hs, hq]
          exact hrec
        · intro r
          rw [hkeys r, mem_dictKeys_dictSet]
          constructor
          · rintro ((h | rfl) | ⟨h1, h2⟩)
            · exact Or.inl h
            · exact Or.inr ⟨List.mem_cons_self _ _, hmem⟩
            · exact Or.inr ⟨List.mem_cons_of_mem _ h1, h2⟩
          · rintro (h | ⟨h1, h2⟩)
            · exact Or.inl (Or.inl h)
            · rcases List.mem_cons.mp h1 with rfl | h1
              · exact Or.inl (Or.inr rfl)
              · exact Or.inr ⟨h1, h2⟩
        · rw [hlog, hlog1]
          simp [hs]
      · have hns : ¬ ((dictGet EXTERNAL_RESOURCES rid).isSome = true) := hs
        have hnotin : rid ∉ catalogIds := fun hm =>
          hns ((dictGet_isSome_iff EXTERNAL_RESOURCES rid).mpr hm)
        obtain ⟨m, st', hrec, hwf', hkeys, hlog⟩ := ih st acc hwf
        refine ⟨m, st', ?_, hwf', ?_, ?_⟩
        · simp only [queryMultipleAux, if_neg hns]
          exact hrec
        · intro r
          rw [hkeys r]
          constructor
          · rintro (h | ⟨h1, h2⟩)
            · exact Or.inl h
            · exact Or.inr ⟨List.mem_cons_of_mem _ h1, h2⟩
          · rintro (h | ⟨h1, h2⟩)
            · exact Or.inl h
            · rcases List.mem_cons.mp h1 with rfl | h1
              · exact absurd h2 hnotin
              · exact Or.inr ⟨h1, h2⟩
        · rw [hlog]
          simp [hns]

/-- Claim C10: for every identifier list and well-formed state,
query_multiple_resources returns (never raises) a mapping whose keys are
exactly the supplied identifiers present in the resource catalog, and (via
the ghost call log) query_resource is invoked once per catalog identifier
occurrence, in the supplied order; identifiers outside the catalog get no
entry, no query_resource call, and cause no error. -/
theorem c10_multi_query_keys_and_calls (cfg : CacheConfig) (net : NetOracle)
    (now : ℚ) (st : RMState) (ids : List String) (ep : String) (params : Params)
    (hwf : wfState st = true) :
    ∃ m st', queryMultipleResources cfg net now st ids ep params = Except.ok (m, st') ∧
      (∀ r, r ∈ dictKeys m ↔ r ∈ ids ∧ r ∈ catalogIds) ∧
      st'.callLog = st.callLog ++
        (ids.filter fun r => (dictGet EXTERNAL_RESOURCES r).isSome).map (fun r => (r, ep)) := by
  obtain ⟨m, st', hrec, _, hkeys, hlog⟩ :=
    queryMultipleAux_spec cfg net now ep params ids st [] hwf
  refine ⟨m, st', hrec, fun r => ?_, hlog⟩
  rw [hkeys r]
  simp [dictKeys]

/-- Witness for c10_multi_query_keys_and_calls: querying
["pubmed", "nosuch", "biorxiv"] from a fresh manager succeeds; "nosuch" is
skipped without a call, the two catalog ids each get one call. -/
theorem c10_multi_query_keys_and_calls_witness :
    ∃ m st', queryMultipleResources CACHE_CONFIG (netConst [("a", "1")]) 0 initState
        ["pubmed", "nosuch", "biorxiv"] "e" [] = Except.ok (m, st') ∧
      (∀ r, r ∈ dictKeys m ↔ r ∈ ["pubmed", "nosuch", "biorxiv"] ∧ r ∈ catalogIds) ∧
      st'.callLog = initState.callLog ++
        ((["pubmed", "nosuch", "biorxiv"].filter
          fun r => (dictGet EXTERNAL_RESOURCES r).isSome).map (fun r => (r, "e"))) :=
  c10_multi_query_keys_and_calls CACHE_CONFIG (netConst [("a", "1")]) 0 initState
    ["pubmed", "nosuch", "biorxiv"] "e" [] (by decide)

theorem checkRateLimit_error {st : RMState} {rid : String} {now : ℚ} {e : PyErr}
    (h : checkRateLimit st rid now = Except.error e) : e = PyErr.keyError rid := by
  unfold checkRateLimit at h
  match h1 : dictGet EXTERNAL_RESOURCES rid with
  | none =>
      rw [h1] at h
      cases h
      rfl
  | some config =>
      rw [h1] at h
      match h2 : dictGet st.last_request_time rid with
      | none =>
          rw [h2] at h
          cases h
          rfl
      | some last =>
          rw [h2] at h
          cases h

theorem queryResource_err_nocat (cfg : CacheConfig) (net : NetOracle) (now : ℚ)
    (st : RMState) (rid ep : String) (params : Params)
    (hb : rid ≠ "biorxiv")
    (hmiss : checkCache cfg st.cache rid params now = none)
    (hcat : dictGet EXTERNAL_RESOURCES rid = none) :
    queryResource cfg net now st rid ep params =
      Except.error (PyErr.keyError rid) := by
  simp [queryResource, hb, hmiss, checkRateLimit, hcat]

theorem queryResource_err_untracked (cfg : CacheConfig) (net : NetOracle) (now : ℚ)
    (st : RMState) (rid ep : String) (params : Params) (config : ResourceConfig)
    (hb : rid ≠ "biorxiv")
    (hmiss : checkCache cfg st.cache rid params now = none)
    (hcat : dictGet EXTERNAL_RESOURCES rid = some config)
    (htrack : dictGet st.last_request_time rid = none) :
    queryResource cfg net now st rid ep params =
      Except.error (PyErr.keyError rid) := by
  simp [queryResource, hb, hmiss, checkRateLimit, hcat, htrack]

theorem queryResource_error {cfg : CacheConfig} {net : NetOracle} {now : ℚ}
    {st : RMState} {rid ep : String} {params : Params} {e : PyErr}
    (h : queryResource cfg net now st rid ep params = Except.error e) :
    e = PyErr.keyError rid := by
  by_cases hb : rid = "biorxiv"
  · subst hb
    rw [queryResource_biorxiv] at h
    cases h
  · match hcc : checkCache cfg st.cache rid params now with
    | some data =>
        rw [queryResource_cacheHit cfg net now st rid ep params data hb hcc] at h
        cases h
    | none =>
        match hcat : dictGet EXTERNAL_RESOURCES rid with
        | none =>
            rw [queryResource_err_nocat cfg net now st rid ep params hb hcc hcat] at h
            cases h
            rfl
        | some config =>
            match htr : dictGet st.last_request_time rid with
            | none =>
                rw [queryResource_err_untracked cfg net now st rid ep params config
                  hb hcc hcat htr] at h
                cases h
                rfl
            | some last =>
                rw [queryResource_eq cfg net now st rid ep params config hb hcc hcat
                  (by simp [htr])] at h
                cases hro : requestOutcome net config rid ep params <;>
                  rw [hro] at h <;> cases h

theorem queryMultipleAux_error (cfg : CacheConfig) (net : NetOracle) (now : ℚ)
    (ep : String) (params : Params) :
    ∀ (ids : List String) (st : RMState) (acc : List (String × Payload)) (e : PyErr),
    queryMultipleAux cfg net now ep params st acc ids = Except.error e →
    ∃ rid, e = PyErr.keyError rid := by
  intro ids
  induction ids with
  | nil =>
      intro st acc e h
      cases h
  | cons rid rest ih =>
      intro st acc e h
      by_cases hs : (dictGet EXTERNAL_RESOURCES rid).isSome = true
      · simp only [queryMultipleAux, if_pos hs] at h
        match hq : queryResource cfg net now st rid ep params with
        | Except.error e0 =>
            rw [hq] at h
            cases h
            exact ⟨rid, queryResource_error hq⟩
        | Except.ok (payload, st1) =>
            rw [hq] at h
            exact ih st1 (dictSet acc rid payload) e h
      · simp only [queryMultipleAux, if_neg hs] at h
        exact ih st acc e h

theorem errString_keyError_ne (rid : String) :
    errString (PyErr.keyError rid) ≠ "" := by
  intro h
  have hl := congrArg String.length h
  simp [errString, String.length_append] at hl
  exact absurd hl.2 (by decide)

theorem targetDiseaseBody_error {cfg : CacheConfig} {net : NetOracle} {now : ℚ}
    {qp : Params} {inj : Option String} {st : RMState} {e : PyErr}
    (h : targetDiseaseBody cfg net now qp inj st = Except.error e) :
    (∃ msg, inj = some msg ∧ e = PyErr.raised msg) ∨ ∃ rid, e = PyErr.keyError rid := by
  unfold targetDiseaseBody at h
  match inj with
  | some msg =>
      cases h
      exact Or.inl ⟨msg, rfl, rfl⟩
  | none =>
      simp only at h
      match hq : queryMultipleResources cfg net now st
          (select_resources "target_disease" ["target-disease", "evidence"])
          "evidence/filter"
          [("target", pyGetOrNone qp "target"), ("disease", pyGetOrNone qp "disease"),
           ("size", "100")] with
      | Except.error e0 =>
          rw [hq] at h
          cases h
          exact Or.inr (queryMultipleAux_error cfg net now "evidence/filter" _ _ st [] e hq)
      | Except.ok (results, st1) =>
          rw [hq] at h
          cases h

theorem openTargetsBody_error {cfg : CacheConfig} {net : NetOracle} {now : ℚ}
    {qp : Params} {inj : Option String} {st : RMState} {e : PyErr}
    (h : openTargetsBody cfg net now qp inj st = Except.error e) :
    (∃ msg, inj = some msg ∧ e = PyErr.raised msg) ∨ ∃ rid, e = PyErr.keyError rid := by
  unfold openTargetsBody at h
  match inj with
  | some msg =>
      cases h
      exact Or.inl ⟨msg, rfl, rfl⟩
  | none =>
      simp only at h
      split at h
      · cases h
      · split at h
        · cases h
        · match hq : queryResource cfg net now st "opentargets"
              "platform/public/association/filter"
              [("q", pyGet qp "query" ""), ("size", "100")] with
          | Except.error e0 =>
              rw [hq] at h
              cases h
              exact Or.inr ⟨"opentargets", queryResource_error hq⟩
          | Except.ok (results, st1) =>
              rw [hq] at h
              cases h

theorem targetDiseaseBody_ok_envelope {cfg : CacheConfig} {net : NetOracle} {now : ℚ}
    {qp : Params} {inj : Option String} {st : RMState} {env : Envelope} {st' : RMState}
    (h : targetDiseaseBody cfg net now qp inj st = Except.ok (env, st')) :
    env.status = "success" ∧ env.error = none := by
  unfold targetDiseaseBody at h
  match inj with
  | some msg => cases h
  | none =>
      simp only at h
      match hq : queryMultipleResources cfg net now st
          (select_resources "target_disease" ["target-disease", "evidence"])
          "evidence/filter"
          [("target", pyGetOrNone qp "target"), ("disease", pyGetOrNone qp "disease"),
           ("size", "100")] with
      | Except.error e0 =>
          rw [hq] at h
          cases h
      | Except.ok (results, st1) =>
          rw [hq] at h
          cases h
          exact ⟨rfl, rfl⟩

theorem openTargetsBody_ok_envelope {cfg : CacheConfig} {net : NetOracle} {now : ℚ}
    {qp : Params} {inj : Option String} {st : RMState} {env : Envelope} {st' : RMState}
    (h : openTargetsBody cfg net now qp inj st = Except.ok (env, st')) :
    (env.status = "error" → env.error.isSome = true) ∧
    (env.error.isSome = true → env.status = "error") := by
  unfold openTargetsBody at h
  match inj with
  | some msg => cases h
  | none =>
      simp only at h
      split at h
      · cases h
        exact ⟨fun _ => rfl, fun _ => rfl⟩
      · split at h
        · cases h
          exact ⟨fun _ => rfl, fun _ => rfl⟩
        · match hq : queryResource cfg net now st "opentargets"
              "platform/public/association/filter"
              [("q", pyGet qp "query" ""), ("size", "100")] with
          | Except.error e0 =>
              rw [hq] at h
              cases h
          | Except.ok (results, st1) =>
              rw [hq] at h
              cases h
              constructor
              · intro hs
                simp [createStandardResponse] at hs
              · intro he
                simp [createStandardResponse] at he

/-- Counterexample to claim C2: when the cited adapters catch an exception,
the error envelope's `results` slot is the empty dict `\x7b\x7d`, not the
empty list `[]` the claim specifies. -/
theorem c2_counterexample_error_results_empty_dict :
    (targetDiseaseQuery CACHE_CONFIG (netConst []) 0 [] (some "boom") initState).1.status
      = "error" ∧
    (targetDiseaseQuery CACHE_CONFIG (netConst []) 0 [] (some "boom") initState).1.results
      = ResultsV.rPayload [] ∧
    (targetDiseaseQuery CACHE_CONFIG (netConst []) 0 [] (some "boom") initState).1.results
      ≠ ResultsV.rList [] := by decide

/-- Claim C2 as amended: any exception raised while the OpenTargets or
TargetDisease adapter builds its query or parses the response is caught and
converted into the envelope with status "error", the caught message in the
error field (dropped if the message is empty, by `if error:` truthiness),
results `\x7b\x7d` (the empty dict, not `[]`), and count 0; the adapter
returns normally, never propagating the exception. -/
theorem c2_adapters_convert_exceptions (cfg : CacheConfig) (net : NetOracle)
    (now : ℚ) (qp : Params) (st : RMState) (msg : String) :
    (targetDiseaseQuery cfg net now qp (some msg) st).1 =
      { query := qp, results := ResultsV.rPayload [], status := "error", count := 0,
        error := if msg = "" then none else some msg } ∧
    (openTargetsQuery cfg net now qp (some msg) st).1 =
      { query := qp, results := ResultsV.rPayload [], status := "error", count := 0,
        error := if msg = "" then none else some msg } := by
  constructor
  · simp [targetDiseaseQuery, targetDiseaseBody, createStandardResponse, errString]
  · simp [openTargetsQuery, openTargetsBody, createStandardResponse, errString]

/-- Counterexample to claim C5: an adapter that catches an exception whose
string form is empty (as `str(MemoryError())` is) produces an envelope with
status "error" but no error field — `if error:` drops the falsy empty
string, refuting the claimed iff. -/
theorem c5_counterexample_empty_error_message :
    (targetDiseaseQuery CACHE_CONFIG (netConst []) 0 [] (some "") initState).1.status
      = "error" ∧
    (targetDiseaseQuery CACHE_CONFIG (netConst []) 0 [] (some "") initState).1.error
      = none := by decide

/-- Claim C5 as amended: count equals len(results) whenever results is a
list and no explicit count is supplied; an envelope produced by the
OpenTargets or TargetDisease adapter has status "error" whenever the error
field is present, and conversely an "error" status comes with the error
field present unless the caught exception's string form was empty. -/
theorem c5_envelope_invariant_amended :
    (∀ (qp : Params) (status : String) (err : Option String) (xs : List Payload),
      (createStandardResponse qp (ResultsV.rList xs) status err none).count
        = xs.length) ∧
    (∀ (cfg : CacheConfig) (net : NetOracle) (now : ℚ) (qp : Params)
        (inj : Option String) (st : RMState),
      ((openTargetsQuery cfg net now qp inj st).1.error.isSome = true →
        (openTargetsQuery cfg net now qp inj st).1.status = "error") ∧
      ((openTargetsQuery cfg net now qp inj st).1.status = "error" →
        (openTargetsQuery cfg net now qp inj st).1.error.isSome = true ∨
          inj = some "")) ∧
    (∀ (cfg : CacheConfig) (net : NetOracle) (now : ℚ) (qp : Params)
        (inj : Option String) (st : RMState),
      ((targetDiseaseQuery cfg net now qp inj st).1.error.isSome = true →
        (targetDiseaseQuery cfg net now qp inj st).1.status = "error") ∧
      ((targetDiseaseQuery cfg net now qp inj st).1.status = "error" →
        (targetDiseaseQuery cfg net now qp inj st).1.error.isSome = true ∨
          inj = some "")) := by
  refine ⟨?_, ?_, ?_⟩
  · intro qp status err xs
    simp [createStandardResponse]
  · intro cfg net now qp inj st
    match hB : openTargetsBody cfg net now qp inj st with
    | Except.ok (env, st') =>
        have hq : (openTargetsQuery cfg net now qp inj st).1 = env := by
          simp [openTargetsQuery, hB]
        rw [hq]
        obtain ⟨h1, h2⟩ := openTargetsBody_ok_envelope hB
        exact ⟨h2, fun hs => Or.inl (h1 hs)⟩
    | Except.error e =>
        have hq : (openTargetsQuery cfg net now qp inj st).1 =
            createStandardResponse qp (ResultsV.rPayload []) "error"
              (some (errString e)) (some 0) := by
          simp [openTargetsQuery, hB]
        rw [hq]
        constructor
        · intro _
          simp [createStandardResponse]
        · intro _
          by_cases hee : errString e = ""
          · rcases openTargetsBody_error hB with ⟨msg, hinj, hraised⟩ | ⟨rid, hkey⟩
            · refine Or.inr ?_
              rw [hinj]
              rw [hraised] at hee
              simp only [errString] at hee
              rw [hee]
            · rw [hkey] at hee
              exact absurd hee (errString_keyError_ne rid)
          · refine Or.inl ?_
            simp [createStandardResponse, hee]
  · intro cfg net now qp inj st
    match hB : targetDiseaseBody cfg net now qp inj st with
    | Except.ok (env, st') =>
        have hq : (targetDiseaseQuery cfg net now qp inj st).1 = env := by
          simp [targetDiseaseQuery, hB]
        rw [hq]
        obtain ⟨h1, h2⟩ := targetDiseaseBody_ok_envelope hB
        constructor
        · intro he
          rw [h2] at he
          cases he
        · intro hs
          rw [h1] at hs
          simp at hs
    | Except.error e =>
        have hq : (targetDiseaseQuery cfg net now qp inj st).1 =
            createStandardResponse qp (ResultsV.rPayload []) "error"
              (some (errString e)) (some 0) := by
          simp [targetDiseaseQuery, hB]
        rw [hq]
        constructor
        · intro _
          simp [createStandardResponse]
        · intro _
          by_cases hee : errString e = ""
          · rcases targetDiseaseBody_error hB with ⟨msg, hinj, hraised⟩ | ⟨rid, hkey⟩
            · refine Or.inr ?_
              rw [hinj]
              rw [hraised] at hee
              simp only [errString] at hee
              rw [hee]
            · rw [hkey] at hee
              exact absurd hee (errString_keyError_ne rid)
          · refine Or.inl ?_
            simp [createStandardResponse, hee]

/-- Witness for c5_envelope_invariant_amended: a one-element list gets
count 1, and the OpenTargets search branch (whose error field is "No results
found") indeed reports status "error". -/
theorem c5_envelope_invariant_amended_witness :
    (createStandardResponse [] (ResultsV.rList [[("t", "1")]]) "success" none none).count
      = 1 ∧
    (openTargetsQuery CACHE_CONFIG (netConst []) 0 [("query", "tp53")] none
      initState).1.status = "error" := by
  constructor
  · have h := c5_envelope_invariant_amended.1 [] "success" none [[("t", "1")]]
    rw [h]
    rfl
  · exact (c5_envelope_invariant_amended.2.1 CACHE_CONFIG (netConst []) 0
      [("query", "tp53")] none initState).1 (by decide)
